import Mathlib

/-!
Verification development for the dlock repository (gifflet/dlock), a Go tool
that disables the Android lock screen over ADB.

The external ADB bridge is modelled as an oracle indexed by a call counter:
the n-th external command issued by the program receives the oracle's answer
at index n.  Every embedded function threads this counter explicitly, so the
final counter value records exactly how many external commands were issued
on the path taken.  An `ExecResult` models the `(success, output, error)`
triple returned by `runADBCommand` (output already trimmed).

String helpers mirror the Go standard library operations the source uses:
`strings.Contains`, `strings.ToLower`, `strings.TrimSpace`,
`strings.Split` on a single-character separator.
-/

/-- Result of one external ADB command, as returned by `runADBCommand`:
success flag, trimmed combined output, and error text. -/
structure ExecResult where
  success : Bool
  output : String
  error : String
deriving DecidableEq

/-- The external world: answer of the n-th external command issued, given the
command string and the device serial ("" when no serial is passed). -/
abbrev Adb := Nat → String → String → ExecResult

/-- Does the pattern occur at the head of the character list?
(Helper for the `strings.Contains` model.) -/
def matchHere : List Char → List Char → Bool
  | [], _ => true
  | _ :: _, [] => false
  | a :: as, b :: bs => a == b && matchHere as bs

/-- Does the pattern occur anywhere in the character list? -/
def containsChars (pat : List Char) : List Char → Bool
  | [] => matchHere pat []
  | b :: bs => matchHere pat (b :: bs) || containsChars pat bs

/-- Model of Go `strings.Contains s pat`. -/
def goContains (s pat : String) : Bool :=
  containsChars pat.data s.data

/-- Model of Go `strings.ToLower` (character-wise lowering). -/
def goToLower (s : String) : String :=
  String.mk (s.data.map Char.toLower)

/-- Whitespace predicate used by the `strings.TrimSpace` model. -/
def isSpaceChar (c : Char) : Bool :=
  c == ' ' || c == '\t' || c == '\n' || c == '\r'

/-- Model of Go `strings.TrimSpace`. -/
def goTrim (s : String) : String :=
  String.mk (((s.data.dropWhile isSpaceChar).reverse.dropWhile isSpaceChar).reverse)

/-- Split a character list at every occurrence of the separator. -/
def splitCharAux (sep : Char) : List Char → List Char → List String
  | [], acc => [String.mk acc.reverse]
  | c :: cs, acc =>
      if c == sep then String.mk acc.reverse :: splitCharAux sep cs []
      else splitCharAux sep cs (c :: acc)

/-- Model of Go `strings.Split s (String.mk [sep])` for a one-character
separator (the source only splits on a newline or on a tab). -/
def goSplit (sep : Char) (s : String) : List String :=
  splitCharAux sep s.data []

/-- A single-quote character, used to spell the command
`shell echo ...` exactly as the Go source does. -/
def singleQuote : String := (Char.ofNat 39).toString

/-- The literal command string `shell echo 'test'` from the source. -/
def echoTestCmd : String := "shell echo " ++ singleQuote ++ "test" ++ singleQuote

/-- disableLockscreenMethod1 (src/unnamed/part_001): clear existing lock settings
(result only logged), then `locksettings set-disabled true`; succeeds iff
the second command succeeds. -/
def disableLockscreenMethod1 (adb : Adb) (d : String) (k : Nat) : Bool × Nat :=
  let _clear := adb k "shell locksettings clear" d
  let r := adb (k + 1) "shell locksettings set-disabled true" d
  (r.success, k + 2)

/-- disableLockscreenMethod2: `settings put secure lockscreen.disabled 1`. -/
def disableLockscreenMethod2 (adb : Adb) (d : String) (k : Nat) : Bool × Nat :=
  let r := adb k "shell settings put secure lockscreen.disabled 1" d
  (r.success, k + 1)

/-- disableLockscreenMethod3: `settings put system lockscreen_disabled 1`. -/
def disableLockscreenMethod3 (adb : Adb) (d : String) (k : Nat) : Bool × Nat :=
  let r := adb k "shell settings put system lockscreen_disabled 1" d
  (r.success, k + 1)

/-- disableLockscreenMethod4: runs both provisioning sub-commands, counts the
successes, and reports success iff the count is positive. -/
def disableLockscreenMethod4 (adb : Adb) (d : String) (k : Nat) : Bool × Nat :=
  let r1 := adb k "shell settings put global device_provisioned 1" d
  let r2 := adb (k + 1) "shell settings put secure user_setup_complete 1" d
  let successCount := (if r1.success then 1 else 0) + (if r2.success then 1 else 0)
  (decide (successCount > 0), k + 2)

/-- The inline strategy loop of `DisableLockscreenOnDeviceAsync`
(disabler.go lines 81-108): tries the four methods in order, sets the
`success` flag and breaks at the first method returning true. -/
def attemptCascade (adb : Adb) (d : String) (k : Nat) : Bool × Nat :=
  let m1 := disableLockscreenMethod1 adb d k
  if m1.1 then (true, m1.2)
  else
    let m2 := disableLockscreenMethod2 adb d m1.2
    if m2.1 then (true, m2.2)
    else
      let m3 := disableLockscreenMethod3 adb d m2.2
      if m3.1 then (true, m3.2)
      else disableLockscreenMethod4 adb d m3.2

/-- Model of `DisableLockScreen` (src/unnamed/part_001 lines 386-411), embedded faithfully: the loop
body is an immediately-invoked closure, so the `return` taken when a method
succeeds exits only that closure, the loop continues with the next method,
and the function falls through to its unconditional `return false`.  All
four methods therefore always run and the result is always `false`. -/
def DisableLockScreen (adb : Adb) (d : String) (k : Nat) : Bool × Nat :=
  let m1 := disableLockscreenMethod1 adb d k
  let m2 := disableLockscreenMethod2 adb d m1.2
  let m3 := disableLockscreenMethod3 adb d m2.2
  let m4 := disableLockscreenMethod4 adb d m3.2
  (false, m4.2)

-- Sanity checks on concrete oracles.
example :
    (disableLockscreenMethod4 (fun _ c _ =>
      if c = "shell settings put secure user_setup_complete 1" then ⟨true, "", ""⟩
      else ⟨false, "", ""⟩) "D" 0).1 = true := by decide

example :
    (attemptCascade (fun _ _ _ => ⟨false, "", ""⟩) "D" 0) = (false, 6) := by decide

/-- Device information record (types.go). -/
structure DeviceInfo where
  Model : String
  Manufacturer : String
  AndroidVersion : String
  APILevel : String
deriving DecidableEq

/-- Shared run statistics (types.go): success counter, append-only failed
list, and the total fixed at creation. -/
structure ProcessingStats where
  successCount : Nat
  failedDevices : List String
  totalDevices : Nat
deriving DecidableEq

/-- Model of `IncrementSuccess` (types.go): bump the success counter. -/
def IncrementSuccess (ps : ProcessingStats) : ProcessingStats :=
  { ps with successCount := ps.successCount + 1 }

/-- Model of `AddFailedDevice` (types.go): append the serial to the failed list. -/
def AddFailedDevice (d : String) (ps : ProcessingStats) : ProcessingStats :=
  { ps with failedDevices := ps.failedDevices ++ [d] }

/-- Model of `GetStats` (types.go): snapshot (successCount, failedDevices, totalDevices). -/
def GetStats (ps : ProcessingStats) : Nat × List String × Nat :=
  (ps.successCount, ps.failedDevices, ps.totalDevices)

/-- Model of `NewProcessingStats` (types.go). -/
def NewProcessingStats (totalDevices : Nat) : ProcessingStats :=
  ⟨0, [], totalDevices⟩

/-- Best-effort property read used by `GetDeviceInfo`: keep the output when
the command succeeds with non-empty output, otherwise the default. -/
def getPropOr (adb : Adb) (k : Nat) (cmd d dflt : String) : String :=
  let r := adb k cmd d
  if r.success && r.output != "" then r.output else dflt

/-- Model of `GetDeviceInfo` (src/unnamed/part_001): four best-effort property reads, every missing
field defaulting to "Unknown". -/
def GetDeviceInfo (adb : Adb) (d : String) (k : Nat) : DeviceInfo × Nat :=
  (⟨getPropOr adb k "shell getprop ro.product.model" d "Unknown",
    getPropOr adb (k + 1) "shell getprop ro.product.manufacturer" d "Unknown",
    getPropOr adb (k + 2) "shell getprop ro.build.version.release" d "Unknown",
    getPropOr adb (k + 3) "shell getprop ro.build.version.sdk" d "Unknown"⟩, k + 4)

/-- Model of `CheckDevicePermissions` (validation.go): basic shell access, then
settings-list access with non-empty output. -/
def CheckDevicePermissions (adb : Adb) (d : String) (k : Nat) : Bool × Nat :=
  let r1 := adb k echoTestCmd d
  if !r1.success then (false, k + 1)
  else
    let r2 := adb (k + 1) "shell settings list secure" d
    if !r2.success || r2.output == "" then (false, k + 2)
    else (true, k + 2)

/-- Model of `CheckExistingLockScreen` (validation.go lines 32-95): five heuristics in
order, returning at the first definitive one; the `locksettings
get-disabled` flag, once observed true, suppresses only the later raw
`lockscreen.disabled == 0` check.  The middle loop over the three
secure-settings reads is unrolled (each iteration fires only the branch
matching its own command string). -/
def CheckExistingLockScreen (adb : Adb) (d : String) (k : Nat) : (Bool × String) × Nat :=
  let r1 := adb k "shell dumpsys trust" d
  if r1.success && r1.output != "" &&
      (goContains (goToLower r1.output) "isdevicesecure=true" ||
       goContains (goToLower r1.output) "iskeyguardsecure=true") then
    ((true, "Device has secure lock screen (detected via trust manager)"), k + 1)
  else
    let r2 := adb (k + 1) "shell locksettings get-disabled" d
    let lockScreenDisabledLockSettingsMethod := r2.success && goContains (goToLower r2.output) "true"
    if r2.success && !(goContains (goToLower r2.output) "true") then
      ((true, "Device has lock configured (detected via locksettings)"), k + 2)
    else
      let r3 := adb (k + 2) "shell dumpsys activity services KeyguardService" d
      if r3.success && r3.output != "" &&
          (goContains (goToLower r3.output) "secure=true" ||
           goContains (goToLower r3.output) "enabled=true") then
        ((true, "Device has keyguard enabled (detected via KeyguardService)"), k + 3)
      else
        let r4 := adb (k + 3) "shell settings get secure lock_pattern_enabled" d
        if r4.success && r4.output != "" && r4.output != "null" && r4.output == "1" then
          ((true, "Device has lock pattern enabled"), k + 4)
        else
          let r5 := adb (k + 4) "shell settings get secure lockscreen.password_type" d
          if r5.success && r5.output != "" && r5.output != "null" && r5.output != "0" then
            ((true, "Device has password type configured (type: " ++ r5.output ++ ")"), k + 5)
          else
            let r6 := adb (k + 5) "shell settings get secure lockscreen.disabled" d
            if r6.success && r6.output != "" && r6.output != "null" && r6.output == "0" &&
                !lockScreenDisabledLockSettingsMethod then
              ((true, "Lock screen is explicitly enabled in settings"), k + 6)
            else
              let r7 := adb (k + 6) "shell dumpsys device_policy" d
              if r7.success && r7.output != "" &&
                  (goContains (goToLower r7.output) "passwordquality" ||
                   goContains (goToLower r7.output) "minimumpasswordlength") then
                ((true, "Device has admin-enforced password policy"), k + 7)
              else
                ((false, "No lock screen detected"), k + 7)

/-- One line of the window dump that proves the lock screen is showing
(validation.go lines 105-115). -/
def windowLockedLine (line : String) : Bool :=
  let l := goToLower line
  (goContains l "mdreaminglockscreen" || goContains l "mshowingleckscreen" ||
   goContains l "keyguardcontroller") &&
  (goContains l "mshowingleckscreen=true" || goContains l "mdreaminglockscreen=true" ||
   goContains l "keyguardshowing=true")

/-- One line of the power dump that proves the device is asleep or dozing. -/
def powerAsleepLine (line : String) : Bool :=
  let l := goToLower line
  (goContains l "mwakefulness" || goContains l "display power") &&
  (goContains l "asleep" || goContains l "dozing")

/-- One line of the activity dump that proves a non-lock-screen activity is
in the foreground. -/
def activityUnlockedLine (line : String) : Bool :=
  let l := goToLower line
  (goContains l "mresumedactivity" || goContains l "mfocusedactivity") &&
  (!(goContains l "keyguard") && !(goContains l "lockscreen") && !(goContains l "bouncer"))

/-- Model of `CheckLockScreenStatus` (validation.go lines 98-163): four heuristics in
order; if none is definitive, returns locked with the indeterminate error. -/
def CheckLockScreenStatus (adb : Adb) (d : String) (k : Nat) : (Bool × Option String) × Nat :=
  let r1 := adb k "shell dumpsys window" d
  if r1.success && r1.output != "" && (goSplit '\n' r1.output).any windowLockedLine then
    ((true, none), k + 1)
  else
    let r2 := adb (k + 1) "shell dumpsys power" d
    if r2.success && r2.output != "" && (goSplit '\n' r2.output).any powerAsleepLine then
      ((true, none), k + 2)
    else
      let r3 := adb (k + 2) "shell dumpsys activity activities" d
      if r3.success && r3.output != "" && (goSplit '\n' r3.output).any activityUnlockedLine then
        ((false, none), k + 3)
      else
        let r4 := adb (k + 3) "shell settings get secure lockscreen.disabled" d
        if r4.success && r4.output == "1" then
          ((false, none), k + 4)
        else
          let r5 := adb (k + 4) "shell locksettings get-disabled" d
          if r5.success && goContains (goToLower r5.output) "true" then
            ((false, none), k + 5)
          else
            ((true, some "unable to determine lock screen status definitively"), k + 5)

/-- Model of `ValidateLockScreenRemoval` (validation.go lines 166-196): check the lock
state; on an indeterminate answer, send a wake key event and recheck once;
if still indeterminate return false, otherwise return the negation of the
(re)checked locked flag. -/
def ValidateLockScreenRemoval (adb : Adb) (d : String) (k : Nat) : Bool × Nat :=
  let c1 := CheckLockScreenStatus adb d k
  match c1.1.2 with
  | some _ =>
      let _wake := adb c1.2 "shell input keyevent KEYCODE_WAKEUP" d
      let c2 := CheckLockScreenStatus adb d (c1.2 + 1)
      match c2.1.2 with
      | some _ => (false, c2.2)
      | none => (!c2.1.1, c2.2)
  | none => (!c1.1.1, c1.2)

/-- Model of `RebootDevice` (src/unnamed/part_001): one reboot command; success means the command
was accepted. -/
def RebootDevice (adb : Adb) (d : String) (k : Nat) : Bool × Nat :=
  let r := adb k "reboot" d
  (r.success, k + 1)

/-- Polling loop of `WaitForDeviceReady` (src/unnamed/part_001 lines 270-293), with the
remaining attempt budget as fuel.  Returns the readiness result, the final
call counter, and how many polling attempts (loop iterations) ran. -/
def waitLoop (adb : Adb) (d : String) : Nat → Nat → Bool × Nat × Nat
  | 0, k => (false, k, 0)
  | n + 1, k =>
      let r1 := adb k "get-state" d
      if r1.success then
        let r2 := adb (k + 1) echoTestCmd d
        if r2.success then (true, k + 2, 1)
        else
          let rest := waitLoop adb d n (k + 2)
          (rest.1, rest.2.1, rest.2.2 + 1)
      else
        let rest := waitLoop adb d n (k + 1)
        (rest.1, rest.2.1, rest.2.2 + 1)

/-- Model of `WaitForDeviceReady` (src/unnamed/part_001 lines 264-298): at most
`maxWaitMinutes * 12` polling attempts; false after exhausting them. -/
def WaitForDeviceReady (adb : Adb) (d : String) (maxWaitMinutes : Nat) (k : Nat) : Bool × Nat :=
  let r := waitLoop adb d (maxWaitMinutes * 12) k
  (r.1, r.2.1)

/-- Number of polling attempts `WaitForDeviceReady` performs. -/
def waitAttempts (adb : Adb) (d : String) (maxWaitMinutes : Nat) (k : Nat) : Nat :=
  (waitLoop adb d (maxWaitMinutes * 12) k).2.2

/-- Model of `DisableLockscreenOnDeviceAsync` (disabler.go lines 48-145): the
per-device orchestration.  Returns the updated statistics (exactly one
terminal update on every path) and the final call counter. -/
def DisableLockscreenOnDeviceAsync (adb : Adb) (d : String) (stats : ProcessingStats)
    (k : Nat) : ProcessingStats × Nat :=
  let info := GetDeviceInfo adb d k
  let p := CheckDevicePermissions adb d info.2
  if !p.1 then (AddFailedDevice d stats, p.2)
  else
    let c := CheckExistingLockScreen adb d p.2
    if !c.1.1 then (IncrementSuccess stats, c.2)
    else
      let m := attemptCascade adb d c.2
      if !m.1 then (AddFailedDevice d stats, m.2)
      else
        let rb := RebootDevice adb d m.2
        if !rb.1 then (IncrementSuccess stats, rb.2)
        else
          let w := WaitForDeviceReady adb d 5 rb.2
          if !w.1 then (AddFailedDevice d stats, w.2)
          else
            let v := ValidateLockScreenRemoval adb d w.2
            if v.1 then (IncrementSuccess stats, v.2)
            else (IncrementSuccess stats, v.2)

/-- Model of `ProcessDevices` (disabler.go lines 148-172): empty input short-circuits
to (0, nil, 0); otherwise one orchestration per listed device against a
fresh `ProcessingStats`, then the final snapshot.  The concurrent fan-out is
serialised here; the statistics mutex makes each terminal update atomic, so
the counts are those of any interleaving. -/
def ProcessDevices (adb : Adb) (devices : List String) (k : Nat) :
    (Nat × List String × Nat) × Nat :=
  if devices.length == 0 then ((0, [], 0), k)
  else
    let final := devices.foldl
      (fun acc dv => DisableLockscreenOnDeviceAsync adb dv acc.1 acc.2)
      (NewProcessingStats devices.length, k)
    (GetStats final.1, final.2)

/-- One line of the `adb devices` listing (src/unnamed/part_001 lines 163-176): trim it;
it contributes a device exactly when it is non-empty and tagged with a tab
followed by "device"; the serial is the part before the first tab. -/
def parseDeviceLine (raw : String) : Option String :=
  let line := goTrim raw
  if line != "" && goContains line "\tdevice" then
    some ((goSplit '\t' line).headD "")
  else none

/-- The online devices parsed from the listing output: skip the header line,
keep only ready-tagged lines, in listing order. -/
def onlineDevices (output : String) : List String :=
  ((goSplit '\n' output).drop 1).filterMap parseDeviceLine

/-- The filter loop of `GetConnectedDevices` (src/unnamed/part_001 lines 183-194): walk the
requested targets in order; a target found online is appended to the result,
a target not online produces one warning.  Membership in `online` models the
`deviceMap` lookup. -/
def filterTargets (online : List String) : List String → List String × List String
  | [] => ([], [])
  | t :: ts =>
      let rest := filterTargets online ts
      if online.contains t then (t :: rest.1, rest.2)
      else (rest.1, t :: rest.2)

/-- Model of `GetConnectedDevices` (src/unnamed/part_001 lines 150-214): list devices, parse the
online ones, then either return them all (no filter) or intersect with the
requested targets in target order.  Returns the selected devices and the
list of warned-about (requested but offline) targets. -/
def GetConnectedDevices (adb : Adb) (targetDevices : List String) (k : Nat) :
    (List String × List String) × Nat :=
  let r := adb k "devices" ""
  if !r.success then (([], []), k + 1)
  else
    let allDevices := onlineDevices r.output
    if targetDevices.length > 0 then (filterTargets allDevices targetDevices, k + 1)
    else ((allDevices, []), k + 1)

/-- The error values Go's os/exec can hand back from `CombinedOutput`:
a non-zero exit status, death by signal, or a start failure (whose message
is prefixed "exec: ").  `message` models `err.Error()`. -/
inductive GoExecError where
  | exitStatus (n : Nat)
  | signal (s : String)
  | startFailure (s : String)

/-- The Go error string of an os/exec error. -/
def GoExecError.message : GoExecError → String
  | .exitStatus n => "exit status " ++ toString n
  | .signal s => "signal: " ++ s
  | .startFailure s => "exec: " ++ s

/-- One low-level run of the external process inside `runADBCommand`
(src/unnamed/part_001 lines 102-132): how long it ran, the error from `CombinedOutput`
(none when the process completed), the exit code, and the combined output.
The context deadline of the source is the literal 30 seconds. -/
structure CmdRun where
  elapsedSeconds : Nat
  err : Option GoExecError
  exitCode : Int
  combinedOutput : String

/-- Model of `runADBCommand` (src/unnamed/part_001 lines 102-132) below the process boundary: on an
error with the 30-second context deadline exceeded, failure with the fixed
text "Command timed out"; on any other error, failure with that error's
message; otherwise success iff the exit code is zero, with trimmed output. -/
def runADBCommand (r : CmdRun) : Bool × String × String :=
  match r.err with
  | some e =>
      if 30 < r.elapsedSeconds then (false, "", "Command timed out")
      else (false, "", e.message)
  | none => (decide (r.exitCode = 0), goTrim r.combinedOutput, "")

/-- Full command assembly of `runADBCommand` (src/unnamed/part_001 lines 103-108). -/
def fullADBCommand (command deviceSerial : String) : String :=
  if deviceSerial != "" then "adb -s " ++ deviceSerial ++ " " ++ command
  else "adb " ++ command

example : onlineDevices "List of devices attached\nD1\tdevice\nD2\tdevice" = ["D1", "D2"] := by
  decide

/-! ## Concrete oracles used by counterexamples and witnesses -/

/-- Oracle on which every external command fails. -/
def adbDead : Adb := fun _ _ _ => ⟨false, "", ""⟩

/-- Oracle on which only `locksettings set-disabled true` (remediation
strategy 1's decisive command) succeeds. -/
def adbC3 : Adb := fun _ c _ =>
  if c = "shell locksettings set-disabled true" then ⟨true, "", ""⟩
  else ⟨false, "", ""⟩

/-- Oracle for the permission-ok, no-lock-found scenario: only the shell
echo probe and the settings listing succeed. -/
def adbC7 : Adb := fun _ c _ =>
  if c = echoTestCmd || c = "shell settings list secure" then ⟨true, "x", ""⟩
  else ⟨false, "", ""⟩

/-- Oracle for a full orchestration whose validation is twice
indeterminate: permissions, trust dump (secure), strategy 1, reboot and
readiness all succeed; every lock-status heuristic fails. -/
def adbC2 : Adb := fun _ c _ =>
  if c = echoTestCmd then ⟨true, "x", ""⟩
  else if c = "shell settings list secure" then ⟨true, "x", ""⟩
  else if c = "shell dumpsys trust" then ⟨true, "isdevicesecure=true", ""⟩
  else if c = "shell locksettings set-disabled true" then ⟨true, "", ""⟩
  else if c = "reboot" then ⟨true, "", ""⟩
  else if c = "get-state" then ⟨true, "device", ""⟩
  else ⟨false, "", ""⟩

/-- Oracle where `locksettings get-disabled` reports "true" but the
keyguard-service dump still reports a secure keyguard. -/
def adbC4 : Adb := fun _ c _ =>
  if c = "shell locksettings get-disabled" then ⟨true, "true", ""⟩
  else if c = "shell dumpsys activity services KeyguardService" then ⟨true, "secure=true", ""⟩
  else ⟨false, "", ""⟩

/-- Oracle where `locksettings get-disabled` reports "true" and the raw
secure setting `lockscreen.disabled` reads "0"; everything else fails. -/
def adbC4w : Adb := fun _ c _ =>
  if c = "shell locksettings get-disabled" then ⟨true, "true", ""⟩
  else if c = "shell settings get secure lockscreen.disabled" then ⟨true, "0", ""⟩
  else ⟨false, "", ""⟩

/-- Oracle whose device listing shows two online devices D1 and D2. -/
def adbC5 : Adb := fun _ c _ =>
  if c = "devices" then ⟨true, "List of devices attached\nD1\tdevice\nD2\tdevice", ""⟩
  else ⟨false, "", ""⟩

/-! ## C6: strategy 4's partial-success rule -/

/-- C6: `disableLockscreenMethod4` succeeds iff at least one of its two
sub-commands succeeds — in particular it still reports success when the
first sub-command fails and the second succeeds, and it fails exactly when
both sub-commands fail. -/
theorem method4_partial_success (adb : Adb) (d : String) (k : Nat) :
    disableLockscreenMethod4 adb d k =
      ((adb k "shell settings put global device_provisioned 1" d).success ||
       (adb (k + 1) "shell settings put secure user_setup_complete 1" d).success, k + 2) := by
  simp only [disableLockscreenMethod4]
  cases h1 : (adb k "shell settings put global device_provisioned 1" d).success <;>
    cases h2 : (adb (k + 1) "shell settings put secure user_setup_complete 1" d).success <;>
      simp [h1, h2]

/-! ## C3: the standalone cascade `DisableLockScreen` -/

/-- C3 (code bug): `DisableLockScreen` never short-circuits and never
reports success.  On every oracle it returns false after consuming all six
strategy commands; concretely, on an oracle where strategy 1 succeeds it
still runs strategies 2-4 and returns false — while the inline cascade of
`DisableLockscreenOnDeviceAsync` stops after strategy 1 and returns true,
which is what the claim (and the function's own comments) describe. -/
theorem disableLockScreen_never_succeeds :
    (∀ (adb : Adb) (d : String) (k : Nat), DisableLockScreen adb d k = (false, k + 6)) ∧
    disableLockscreenMethod1 adbC3 "D" 0 = (true, 2) ∧
    DisableLockScreen adbC3 "D" 0 = (false, 6) ∧
    attemptCascade adbC3 "D" 0 = (true, 2) := by
  refine ⟨fun adb d k => ?_, by decide, by decide, by decide⟩
  simp only [DisableLockScreen, disableLockscreenMethod1, disableLockscreenMethod2,
    disableLockscreenMethod3, disableLockscreenMethod4]

/-! ## C8: the readiness polling bound -/

/-- The polling loop performs at most as many attempts as its budget. -/
theorem waitLoop_attempts_le (adb : Adb) (d : String) :
    ∀ (n k : Nat), (waitLoop adb d n k).2.2 ≤ n := by
  intro n
  induction n with
  | zero => intro k; simp [waitLoop]
  | succ n ih =>
      intro k
      simp only [waitLoop]
      split
      · split
        · simp
        · simpa using Nat.succ_le_succ (ih (k + 2))
      · simpa using Nat.succ_le_succ (ih (k + 1))

/-- If the shell probe never succeeds, the polling loop reports not-ready. -/
theorem waitLoop_never_ready (adb : Adb) (d : String)
    (h : ∀ j, (adb j echoTestCmd d).success = false) :
    ∀ (n k : Nat), (waitLoop adb d n k).1 = false := by
  intro n
  induction n with
  | zero => intro k; simp [waitLoop]
  | succ n ih =>
      intro k
      simp only [waitLoop]
      split
      · simp only [h (k + 1)]
        simpa using ih (k + 2)
      · simpa using ih (k + 1)

/-- C8: `WaitForDeviceReady` performs at most `maxWaitMinutes * 12` polling
attempts, and when the target never answers the shell probe it returns
false as an ordinary boolean result after exhausting them. -/
theorem waitForDeviceReady_bound (adb : Adb) (d : String) (m k : Nat) :
    waitAttempts adb d m k ≤ m * 12 ∧
    ((∀ j, (adb j echoTestCmd d).success = false) → (WaitForDeviceReady adb d m k).1 = false) := by
  exact ⟨waitLoop_attempts_le adb d (m * 12) k,
    fun h => waitLoop_never_ready adb d h (m * 12) k⟩

/-- Witness for C8 at `maxWaitMinutes = 1` on the all-failing oracle. -/
theorem waitForDeviceReady_bound_witness :
    waitAttempts adbDead "D" 1 0 ≤ 12 ∧ (WaitForDeviceReady adbDead "D" 1 0).1 = false := by
  have h := waitForDeviceReady_bound adbDead "D" 1 0
  exact ⟨by simpa using h.1, h.2 (fun j => rfl)⟩

/-! ## C9: the command timeout error text -/

/-- Character-list view of string concatenation. -/
theorem strDataAppend (s t : String) : (s ++ t).data = s.data ++ t.data := by
  cases s; cases t; rfl

/-- No os/exec error message coincides with the fixed timeout text. -/
theorem goExecError_message_ne (e : GoExecError) : e.message ≠ "Command timed out" := by
  cases e with
  | exitStatus n =>
      intro h
      have h2 := congrArg String.data h
      rw [GoExecError.message, strDataAppend] at h2
      have h3 := congrArg List.head? h2
      have h4 : (some 'e' : Option Char) = some 'C' := h3
      exact absurd h4 (by decide)
  | signal s =>
      intro h
      have h2 := congrArg String.data h
      rw [GoExecError.message, strDataAppend] at h2
      have h3 := congrArg List.head? h2
      have h4 : (some 's' : Option Char) = some 'C' := h3
      exact absurd h4 (by decide)
  | startFailure s =>
      intro h
      have h2 := congrArg String.data h
      rw [GoExecError.message, strDataAppend] at h2
      have h3 := congrArg List.head? h2
      have h4 : (some 'e' : Option Char) = some 'C' := h3
      exact absurd h4 (by decide)

/-- C9: when the external command exceeds the 30-second deadline,
`runADBCommand` returns failure with exactly the text "Command timed out";
on any run within the deadline the error text is never that string, so the
timeout text is distinguishable from every other kind of failure. -/
theorem runADBCommand_timeout_distinct (r : CmdRun) :
    (30 < r.elapsedSeconds → r.err ≠ none → runADBCommand r = (false, "", "Command timed out")) ∧
    (r.elapsedSeconds ≤ 30 → (runADBCommand r).2.2 ≠ "Command timed out") := by
  constructor
  · intro h1 h2
    rcases he : r.err with _ | e
    · exact absurd he h2
    · simp [runADBCommand, he, h1]
  · intro h1
    rcases he : r.err with _ | e
    · simp only [runADBCommand, he]
      decide
    · have hnot : ¬30 < r.elapsedSeconds := not_lt.mpr h1
      simp only [runADBCommand, he, if_neg hnot]
      exact goExecError_message_ne e

/-- A concrete timed-out run: 31 seconds elapsed, process killed. -/
def cmdRunTimedOut : CmdRun := ⟨31, some (.signal "killed"), 1, ""⟩

/-- Witness for C9 on a concrete timed-out run. -/
theorem runADBCommand_timeout_distinct_witness :
    30 < cmdRunTimedOut.elapsedSeconds ∧
    runADBCommand cmdRunTimedOut = (false, "", "Command timed out") := by
  refine ⟨by decide, ?_⟩
  exact (runADBCommand_timeout_distinct cmdRunTimedOut).1 (by decide)
    (fun h => Option.noConfusion h)

/-! ## C1: exactly one terminal statistics update per device -/

/-- Every execution path of the per-device orchestration ends in exactly one
terminal statistics update: the result is either `IncrementSuccess` or
`AddFailedDevice` applied once to the incoming statistics. -/
theorem async_shape (adb : Adb) (d : String) (stats : ProcessingStats) (k : Nat) :
    (DisableLockscreenOnDeviceAsync adb d stats k).1 = IncrementSuccess stats ∨
    (DisableLockscreenOnDeviceAsync adb d stats k).1 = AddFailedDevice d stats := by
  simp only [DisableLockscreenOnDeviceAsync]
  split_ifs <;> simp

/-- One orchestration adds exactly one to `successCount + |failedDevices|`
and leaves `totalDevices` unchanged. -/
theorem async_counts (adb : Adb) (d : String) (stats : ProcessingStats) (k : Nat) :
    (DisableLockscreenOnDeviceAsync adb d stats k).1.successCount +
      ((DisableLockscreenOnDeviceAsync adb d stats k).1.failedDevices).length =
      stats.successCount + stats.failedDevices.length + 1 ∧
    (DisableLockscreenOnDeviceAsync adb d stats k).1.totalDevices = stats.totalDevices := by
  rcases async_shape adb d stats k with h | h <;> rw [h] <;>
    simp [IncrementSuccess, AddFailedDevice] <;> omega

/-- Invariant of the (serialised) fan-out loop of `ProcessDevices`. -/
theorem processLoop_counts (adb : Adb) :
    ∀ (devices : List String) (stats : ProcessingStats) (k : Nat),
    ((devices.foldl (fun acc dv => DisableLockscreenOnDeviceAsync adb dv acc.1 acc.2)
        (stats, k)).1.successCount +
      ((devices.foldl (fun acc dv => DisableLockscreenOnDeviceAsync adb dv acc.1 acc.2)
        (stats, k)).1.failedDevices).length =
      stats.successCount + stats.failedDevices.length + devices.length) ∧
    (devices.foldl (fun acc dv => DisableLockscreenOnDeviceAsync adb dv acc.1 acc.2)
        (stats, k)).1.totalDevices = stats.totalDevices := by
  intro devices
  induction devices with
  | nil => intro stats k; simp
  | cons dv ds ih =>
      intro stats k
      simp only [List.foldl_cons, List.length_cons]
      have hstep := async_counts adb dv stats k
      have hrec := ih (DisableLockscreenOnDeviceAsync adb dv stats k).1
        (DisableLockscreenOnDeviceAsync adb dv stats k).2
      rw [Prod.mk.eta] at hrec
      exact ⟨by omega, by omega⟩

/-- C1: for every target list, `ProcessDevices` returns a total equal to the
list's length, and the success count plus the number of failed devices
equals that total — every device resolves to exactly one terminal outcome. -/
theorem processDevices_counts (adb : Adb) (devices : List String) (k : Nat) :
    (ProcessDevices adb devices k).1.2.2 = devices.length ∧
    (ProcessDevices adb devices k).1.1 + ((ProcessDevices adb devices k).1.2.1).length =
      (ProcessDevices adb devices k).1.2.2 := by
  by_cases h : devices.length = 0
  · simp [ProcessDevices, h]
  · have hne : (devices.length == 0) = false := by simpa using h
    simp only [ProcessDevices, hne, Bool.false_eq_true, if_false, GetStats]
    have hloop := processLoop_counts adb devices (NewProcessingStats devices.length) k
    refine ⟨?_, ?_⟩
    · rw [hloop.2]; rfl
    · rw [hloop.2]
      have h1 := hloop.1
      simp [NewProcessingStats] at h1 ⊢
      omega

/-! ## C7: no lock present means immediate success with no remediation -/

/-- C7: when permissions pass and the lock inspection reports no lock, the
orchestration records SUCCESS immediately and its final call counter is the
counter right after the inspection — so no remediation strategy command and
no reboot command is ever issued. -/
theorem noLock_immediate_success (adb : Adb) (d : String) (stats : ProcessingStats)
    (k k2 k3 : Nat) (s : String)
    (hperm : CheckDevicePermissions adb d (k + 4) = (true, k2))
    (hlock : CheckExistingLockScreen adb d k2 = ((false, s), k3)) :
    DisableLockscreenOnDeviceAsync adb d stats k = (IncrementSuccess stats, k3) := by
  have hinfo : (GetDeviceInfo adb d k).2 = k + 4 := rfl
  simp only [DisableLockscreenOnDeviceAsync, hinfo, hperm, hlock]
  simp

/-- Witness for C7: on an oracle where only the permission probes succeed,
the orchestration ends right after the lock inspection (13 external
commands) with a success update. -/
theorem noLock_immediate_success_witness :
    DisableLockscreenOnDeviceAsync adbC7 "D" (NewProcessingStats 1) 0 =
      (IncrementSuccess (NewProcessingStats 1), 13) := by
  exact noLock_immediate_success adbC7 "D" (NewProcessingStats 1) 0 6 13
    "No lock screen detected" (by decide) (by decide)

/-! ## C2: indeterminate validation still records success -/

/-- C2 (amended): when the orchestration reaches the validation step and the
lock-state check is indeterminate, a wake event is sent and the check is
retried once; if the recheck is still indeterminate,
`ValidateLockScreenRemoval` returns false — but the orchestrator records the
device as a SUCCESS all the same, not as a failed device. -/
theorem validate_indeterminate_records_success (adb : Adb) (d : String)
    (stats : ProcessingStats) (k k2 k3 k4 k5 k6 j1 j2 : Nat) (s e1 e2 : String) (b1 b2 : Bool)
    (hperm : CheckDevicePermissions adb d (k + 4) = (true, k2))
    (hlock : CheckExistingLockScreen adb d k2 = ((true, s), k3))
    (hcascade : attemptCascade adb d k3 = (true, k4))
    (hreboot : RebootDevice adb d k4 = (true, k5))
    (hwait : WaitForDeviceReady adb d 5 k5 = (true, k6))
    (hchk1 : CheckLockScreenStatus adb d k6 = ((b1, some e1), j1))
    (hchk2 : CheckLockScreenStatus adb d (j1 + 1) = ((b2, some e2), j2)) :
    ValidateLockScreenRemoval adb d k6 = (false, j2) ∧
    DisableLockscreenOnDeviceAsync adb d stats k = (IncrementSuccess stats, j2) := by
  have hval : ValidateLockScreenRemoval adb d k6 = (false, j2) := by
    simp only [ValidateLockScreenRemoval, hchk1]
    simp only [hchk2]
  refine ⟨hval, ?_⟩
  have hinfo : (GetDeviceInfo adb d k).2 = k + 4 := rfl
  simp only [DisableLockscreenOnDeviceAsync, hinfo, hperm, hlock, hcascade, hreboot,
    hwait, hval]
  simp

/-- C2 counterexample: on `adbC2` the validation step is indeterminate
twice, `ValidateLockScreenRemoval` returns false, yet the orchestration
increments the success counter and records no failed device — the claim's
"recorded in the failed-device statistics" is false on the code. -/
theorem validate_indeterminate_success_cex :
    CheckLockScreenStatus adbC2 "D" 12 =
      ((true, some "unable to determine lock screen status definitively"), 17) ∧
    CheckLockScreenStatus adbC2 "D" 18 =
      ((true, some "unable to determine lock screen status definitively"), 23) ∧
    ValidateLockScreenRemoval adbC2 "D" 12 = (false, 23) ∧
    DisableLockscreenOnDeviceAsync adbC2 "D" (NewProcessingStats 1) 0 =
      (⟨1, [], 1⟩, 23) := by decide

/-- Witness for C2's amended theorem on the concrete oracle `adbC2`. -/
theorem validate_indeterminate_records_success_witness :
    ValidateLockScreenRemoval adbC2 "D" 12 = (false, 23) ∧
    DisableLockscreenOnDeviceAsync adbC2 "D" (NewProcessingStats 1) 0 =
      (IncrementSuccess (NewProcessingStats 1), 23) := by
  exact validate_indeterminate_records_success adbC2 "D" (NewProcessingStats 1)
    0 6 7 9 10 12 17 23
    "Device has secure lock screen (detected via trust manager)"
    "unable to determine lock screen status definitively"
    "unable to determine lock screen status definitively" true true
    (by decide) (by decide) (by decide) (by decide) (by decide) (by decide) (by decide)

/-! ## C4: the lock-settings disabled flag and the later heuristics -/

/-- C4 counterexample: on `adbC4` the `locksettings get-disabled` command
succeeds with output "true", yet `CheckExistingLockScreen` goes on to the
keyguard-service heuristic, which fires — the result is a detected lock
after 3 consulted commands, not (false, "No lock screen detected"). -/
theorem lockSettingsDisabled_later_heuristics_cex :
    (adbC4 1 "shell locksettings get-disabled" "D").success = true ∧
    goContains (goToLower (adbC4 1 "shell locksettings get-disabled" "D").output) "true" = true ∧
    CheckExistingLockScreen adbC4 "D" 0 =
      ((true, "Device has keyguard enabled (detected via KeyguardService)"), 3) := by decide

/-- C4 (amended): when `locksettings get-disabled` succeeds with an output
containing "true", the lock-settings heuristic does not itself report a
lock, and the observed flag suppresses only the later raw
`lockscreen.disabled == "0"` check; the later heuristics are still
consulted, and when none of them fires — even though the raw setting reads
"0" — the result is (false, "No lock screen detected") after all seven
commands. -/
theorem lockSettingsDisabled_suppression (adb : Adb) (d : String) (k : Nat)
    (h1 : (adb k "shell dumpsys trust" d).success = false)
    (h2 : (adb (k + 1) "shell locksettings get-disabled" d).success = true)
    (h3 : goContains (goToLower (adb (k + 1) "shell locksettings get-disabled" d).output)
      "true" = true)
    (h4 : (adb (k + 2) "shell dumpsys activity services KeyguardService" d).success = false)
    (h5 : (adb (k + 3) "shell settings get secure lock_pattern_enabled" d).success = false)
    (h6 : (adb (k + 4) "shell settings get secure lockscreen.password_type" d).success = false)
    (h7 : adb (k + 5) "shell settings get secure lockscreen.disabled" d = ⟨true, "0", ""⟩)
    (h8 : (adb (k + 6) "shell dumpsys device_policy" d).success = false) :
    CheckExistingLockScreen adb d k = ((false, "No lock screen detected"), k + 7) := by
  simp only [CheckExistingLockScreen, h1, h2, h3, h4, h5, h6, h7, h8]
  simp

/-- Witness for C4's amended theorem on the concrete oracle `adbC4w`. -/
theorem lockSettingsDisabled_suppression_witness :
    CheckExistingLockScreen adbC4w "D" 0 = ((false, "No lock screen detected"), 7) := by
  exact lockSettingsDisabled_suppression adbC4w "D" 0 (by decide) (by decide) (by decide)
    (by decide) (by decide) (by decide) (by decide) (by decide)

/-! ## C5 and C10: device listing with a target filter -/

/-- The Go filter loop computes the two filters of the target list: kept
targets are those found online, warned targets the others, both in target
order. -/
theorem filterTargets_eq (online : List String) :
    ∀ ts : List String,
      filterTargets online ts =
        (ts.filter (fun t => online.contains t),
         ts.filter (fun t => !online.contains t)) := by
  intro ts
  induction ts with
  | nil => rfl
  | cons t ts ih =>
      simp only [filterTargets, ih, List.filter_cons]
      cases h : online.contains t <;> simp [h]

/-- A filter and its complement partition a list's length. -/
theorem filter_partition_length {α : Type} (p : α → Bool) :
    ∀ l : List α, (l.filter p).length + (l.filter (fun t => !p t)).length = l.length := by
  intro l
  induction l with
  | nil => rfl
  | cons a l ih =>
      simp only [List.filter_cons]
      cases h : p a <;> simp [h] <;> omega

/-- With a successful listing and a non-empty filter, `GetConnectedDevices`
returns the filter's online members and warns about the rest. -/
theorem gcdFilterBranch (adb : Adb) (F : List String) (k : Nat)
    (hsucc : (adb k "devices" "").success = true) (hF : F ≠ []) :
    (GetConnectedDevices adb F k).1 =
      (F.filter (fun t => (onlineDevices (adb k "devices" "").output).contains t),
       F.filter (fun t => !(onlineDevices (adb k "devices" "").output).contains t)) := by
  have hpos : 0 < F.length := List.length_pos.mpr hF
  simp only [GetConnectedDevices, hsucc]
  simp [hpos, filterTargets_eq]

/-- C5: with a successful listing, a non-empty filter F yields exactly the
members of F that are online, in F's order (a sublist of F), with one
warning per filter entry not online; an empty filter yields all online
devices in listing order (header and non-ready lines excluded by the
parse). -/
theorem getConnectedDevices_filter_spec (adb : Adb) (F : List String) (k : Nat)
    (hsucc : (adb k "devices" "").success = true) :
    (F ≠ [] →
      (GetConnectedDevices adb F k).1.1 =
        F.filter (fun t => (onlineDevices (adb k "devices" "").output).contains t) ∧
      (GetConnectedDevices adb F k).1.2 =
        F.filter (fun t => !(onlineDevices (adb k "devices" "").output).contains t) ∧
      (GetConnectedDevices adb F k).1.1.Sublist F ∧
      (∀ x, x ∈ (GetConnectedDevices adb F k).1.1 ↔
        x ∈ F ∧ x ∈ onlineDevices (adb k "devices" "").output) ∧
      (GetConnectedDevices adb F k).1.1.length + (GetConnectedDevices adb F k).1.2.length =
        F.length) ∧
    (F = [] →
      (GetConnectedDevices adb F k).1 = (onlineDevices (adb k "devices" "").output, [])) := by
  constructor
  · intro hF
    have hg := gcdFilterBranch adb F k hsucc hF
    have h1 : (GetConnectedDevices adb F k).1.1 =
        F.filter (fun t => (onlineDevices (adb k "devices" "").output).contains t) := by
      rw [hg]
    have h2 : (GetConnectedDevices adb F k).1.2 =
        F.filter (fun t => !(onlineDevices (adb k "devices" "").output).contains t) := by
      rw [hg]
    refine ⟨h1, h2, ?_, ?_, ?_⟩
    · rw [h1]; apply List.filter_sublist
    · intro x
      rw [h1, List.mem_filter]
      constructor
      · rintro ⟨hxF, hp⟩
        exact ⟨hxF, List.mem_of_elem_eq_true hp⟩
      · rintro ⟨hxF, hx⟩
        exact ⟨hxF, List.elem_eq_true_of_mem hx⟩
    · rw [h1, h2]; exact filter_partition_length _ F
  · intro hF
    subst hF
    simp [GetConnectedDevices, hsucc]

/-- Witness for C5 on the concrete scenario: D1 and D2 online, filter
["D1", "D3"] gives result ["D1"] and one warning for "D3". -/
theorem getConnectedDevices_filter_spec_witness :
    (GetConnectedDevices adbC5 ["D1", "D3"] 0).1.1 = ["D1"] ∧
    (GetConnectedDevices adbC5 ["D1", "D3"] 0).1.2 = ["D3"] := by
  have h := (getConnectedDevices_filter_spec adbC5 ["D1", "D3"] 0 (by decide)).1 (by decide)
  exact ⟨h.1.trans (by decide), h.2.1.trans (by decide)⟩

/-- C10: the target filter is not deduplicated — an online identifier keeps
its multiplicity from the target list in the result, and a non-online
identifier never appears; the result is a multiset, not the set
intersection. -/
theorem getConnectedDevices_no_dedup (adb : Adb) (F : List String) (k : Nat) (x : String)
    (hsucc : (adb k "devices" "").success = true) (hF : F ≠ []) :
    (x ∈ onlineDevices (adb k "devices" "").output →
      (GetConnectedDevices adb F k).1.1.count x = F.count x) ∧
    (x ∉ onlineDevices (adb k "devices" "").output →
      (GetConnectedDevices adb F k).1.1.count x = 0) := by
  have hg := gcdFilterBranch adb F k hsucc hF
  have h1 : (GetConnectedDevices adb F k).1.1 =
      F.filter (fun t => (onlineDevices (adb k "devices" "").output).contains t) := by
    rw [hg]
  constructor
  · intro hx
    rw [h1]
    exact List.count_filter (List.elem_eq_true_of_mem hx)
  · intro hx
    rw [h1, List.count_eq_zero]
    intro hmem
    rw [List.mem_filter] at hmem
    exact hx (List.mem_of_elem_eq_true hmem.2)

/-- Witness for C10: a duplicated online target is returned twice. -/
theorem getConnectedDevices_no_dedup_witness :
    (GetConnectedDevices adbC5 ["D1", "D1"] 0).1.1.count "D1" = 2 := by
  have h := (getConnectedDevices_no_dedup adbC5 ["D1", "D1"] 0 "D1" (by decide) (by decide)).1
    (by decide)
  exact h.trans (by decide)
